import Mathlib

/-!
Shallow embedding of `main.py` from the densenet-pytorch repository: the
training driver script.  Floating-point learning rates and accuracies are
modelled as exact rationals; the external framework calls (`train`,
`validate`, dataset/model construction) are abstracted as an environment of
oracle functions; the filesystem touched by checkpointing is an explicit map
from path strings to checkpoint contents.
-/

namespace DenseNetMain

/-- A model's `state_dict()` is an opaque blob of weights; its contents never
matter to the driver logic, only its identity. -/
abbrev StateDict := String

/-- The three data loaders built in `main` (lines 122-125).  `test` is the one
that is only bound when `args.imagenet` is false. -/
inductive Loader where
  | train
  | val
  | test
deriving DecidableEq, Repr

/-- The command-line arguments of `main.py` (argparse block, lines 15-53),
restricted to the fields the driver logic reads. -/
structure Args where
  epochs : Nat
  start_epoch : Nat
  batch_size : Nat
  lr : ℚ
  momentum : ℚ
  weight_decay : ℚ
  layers : Nat
  growth : Nat
  droprate : ℚ
  augment : Bool
  reduce : ℚ
  bottleneck : Bool
  resume : String
  imagenet : Bool
  test : String
  name : String
  tensorboard : Bool
deriving DecidableEq, Repr

/-- The argparse defaults (lines 15-53). -/
def defaultArgs : Args where
  epochs := 300
  start_epoch := 0
  batch_size := 64
  lr := 1/10
  momentum := 9/10
  weight_decay := 1/10000
  layers := 100
  growth := 12
  droprate := 0
  augment := true
  reduce := 1/2
  bottleneck := true
  resume := ""
  imagenet := false
  test := ""
  name := "DenseNet_BC_100_12"
  tensorboard := false

/-- One entry of `optimizer.param_groups`: the hyperparameters SGD keeps per
parameter group, plus the parameter list itself (abstracted as the model blob
the parameters came from). -/
structure ParamGroup where
  params : StateDict
  lr : ℚ
  momentum : ℚ
  weight_decay : ℚ
  nesterov : Bool
deriving DecidableEq, Repr

/-- A `torch.optim.SGD` instance, as far as the driver observes it. -/
structure Optimizer where
  param_groups : List ParamGroup
deriving DecidableEq, Repr

/-- `torch.optim.SGD(model.parameters(), args.lr, momentum=..., nesterov=True,
weight_decay=...)` (lines 173-176): a single param group holding the given
hyperparameters. -/
def mkSGD (params : StateDict) (lr momentum weight_decay : ℚ) : Optimizer :=
  { param_groups := [{ params := params, lr := lr, momentum := momentum,
                       weight_decay := weight_decay, nesterov := true }] }

/-- The learning rate computed by `adjust_learning_rate` (lines 214-217):
`args.lr * 0.1 ** (epoch // m1) * 0.1 ** (epoch // m2)` with milestones
(30, 60) in ImageNet mode and (150, 225) in CIFAR mode. -/
def scheduled_lr (args : Args) (epoch : Nat) : ℚ :=
  if args.imagenet then
    args.lr * (1/10) ^ (epoch / 30) * (1/10) ^ (epoch / 60)
  else
    args.lr * (1/10) ^ (epoch / 150) * (1/10) ^ (epoch / 225)

/-- `adjust_learning_rate(optimizer, epoch)` (lines 212-222): writes the
scheduled learning rate into every param group of the optimizer. -/
def adjust_learning_rate (args : Args) (optimizer : Optimizer) (epoch : Nat) :
    Optimizer :=
  let lr := scheduled_lr args epoch
  { optimizer with
    param_groups := optimizer.param_groups.map fun param_group =>
      { param_group with lr := lr } }

/-- The learning-rate schedule as the spec's claim words it: the initial rate
before the first milestone, a tenth of it between the milestones, a hundredth
of it from the second milestone on. -/
def claimed_lr (args : Args) (epoch : Nat) : ℚ :=
  let m1 : Nat := if args.imagenet then 30 else 150
  let m2 : Nat := if args.imagenet then 60 else 225
  if epoch < m1 then args.lr
  else if epoch < m2 then args.lr / 10
  else args.lr / 100

/-- First LR milestone: 30 in ImageNet mode, 150 in CIFAR mode. -/
def milestone1 (args : Args) : Nat := if args.imagenet then 30 else 150

/-- Second LR milestone: 60 in ImageNet mode, 225 in CIFAR mode. -/
def milestone2 (args : Args) : Nat := if args.imagenet then 60 else 225

/-- The dictionary passed to `torch.save` in `save_checkpoint` (lines
190-194) and read back by the resume and test branches: exactly the keys
`epoch`, `state_dict`, `best_prec1`. -/
structure Checkpoint where
  epoch : Nat
  state_dict : StateDict
  best_prec1 : ℚ
deriving DecidableEq, Repr

/-- The slice of the filesystem the driver touches: which directories exist
and what checkpoint dictionary each path holds (`None` = no such file). -/
structure FS where
  dirs : String → Bool
  files : String → Option Checkpoint

/-- `os.makedirs(d)`: afterwards the directory exists. -/
def FS.makedirs (fs : FS) (d : String) : FS :=
  { fs with dirs := fun q => if q = d then true else fs.dirs q }

/-- `torch.save(state, p)`: afterwards path `p` holds `state`. -/
def FS.writeFile (fs : FS) (p : String) (c : Checkpoint) : FS :=
  { fs with files := fun q => if q = p then some c else fs.files q }

/-- `shutil.copyfile(src, dst)`: afterwards `dst` holds whatever `src` held. -/
def FS.copyFile (fs : FS) (src dst : String) : FS :=
  { fs with files := fun q => if q = dst then fs.files src else fs.files q }

/-- `save_checkpoint(state, is_best, filename)` (lines 201-209): create
`runs/{name}/` if missing, write the state dictionary to
`runs/{name}/` + filename, and if `is_best` copy that file to
`runs/{name}/model_best.pth.tar`. -/
def save_checkpoint (name : String) (state : Checkpoint) (is_best : Bool)
    (filename : String) (fs : FS) : FS :=
  let directory := "runs/" ++ name ++ "/"
  let fs1 := if fs.dirs directory then fs else fs.makedirs directory
  let filename1 := directory ++ filename
  let fs2 := fs1.writeFile filename1 state
  if is_best then fs2.copyFile filename1 ("runs/" ++ name ++ "/model_best.pth.tar")
  else fs2

/-- Observable actions of the driver, in program order: one constructor per
effectful call site of `main`. -/
inductive Event where
  /-- `adjust_learning_rate(optimizer, epoch)` at line 179, with the rate it
  writes. -/
  | adjustLR (epoch : Nat) (lr : ℚ)
  /-- `train(train_loader, model, criterion, optimizer, epoch, args)`,
  line 182. -/
  | trainE (epoch : Nat)
  /-- `validate(val_loader, model, criterion, epoch, args)` at line 185, with
  the precision it returned. -/
  | validateE (epoch : Nat) (prec1 : ℚ)
  /-- `save_checkpoint({...}, is_best)` at line 190. -/
  | saveCkpt (epoch : Nat) (is_best : Bool)
  /-- `torch.optim.SGD(...)` construction at line 173. -/
  | mkOptim
  /-- `test(test_loader, model, args)` at line 166 or 198, with the loader it
  received. -/
  | testPass (loader : Loader)
  /-- `torch.load(args.resume)` in the resume branch, line 147. -/
  | loadResume (path : String)
  /-- `torch.load(args.test)` in the test branch, line 161. -/
  | loadTest (path : String)
  /-- a `print(...)` call. -/
  | printMsg (msg : String)
deriving DecidableEq, Repr

/-- The shape of an event: its call site and, for the per-epoch calls, the
epoch — the payloads (rates, precisions, flags) stripped. -/
inductive Step where
  | adjust (epoch : Nat)
  | train (epoch : Nat)
  | validate (epoch : Nat)
  | save (epoch : Nat)
  | optim
  | testp
  | loadR
  | loadT
  | msg
deriving DecidableEq, Repr

/-- Forget an event's payload, keeping its call site and epoch. -/
def Event.shape : Event → Step
  | .adjustLR e _ => .adjust e
  | .trainE e => .train e
  | .validateE e _ => .validate e
  | .saveCkpt e _ => .save e
  | .mkOptim => .optim
  | .testPass _ => .testp
  | .loadResume _ => .loadR
  | .loadTest _ => .loadT
  | .printMsg _ => .msg

/-- Whether an event is a call to the external `train` step. -/
def Event.isTrain : Event → Bool
  | .trainE _ => true
  | _ => false

/-- Whether an event is a call to the external `test` pass. -/
def Event.isTest : Event → Bool
  | .testPass _ => true
  | _ => false

/-- Whether an event is the optimizer construction. -/
def Event.isOptim : Event → Bool
  | .mkOptim => true
  | _ => false

/-- Whether an event is the `torch.load` of the test branch. -/
def Event.isLoadTest : Event → Bool
  | .loadTest _ => true
  | _ => false

/-- The external framework calls the driver delegates to: `train` updates the
model weights (it sees the current weights and optimizer), `validate` returns
a precision for the current weights. -/
structure Env where
  trainStep : Nat → StateDict → Optimizer → StateDict
  validate : Nat → StateDict → ℚ

/-- The mutable state of the epoch loop (lines 178-194): the global
`best_prec1`, the model weights, the filesystem, and the optimizer. -/
structure LoopState where
  best : ℚ
  model : StateDict
  fs : FS
  optimizer : Optimizer

/-- The body of the epoch loop (lines 179-194): adjust the learning rate,
train for one epoch, validate, remember the best precision, save a
checkpoint.  Returns the updated state and the events in execution order. -/
def epochBody (args : Args) (env : Env) (epoch : Nat) (st : LoopState) :
    LoopState × List Event :=
  let optimizer := adjust_learning_rate args st.optimizer epoch
  let model := env.trainStep epoch st.model optimizer
  let prec1 := env.validate epoch model
  let is_best : Bool := decide (st.best < prec1)
  let best := max prec1 st.best
  let fs := save_checkpoint args.name
    { epoch := epoch + 1, state_dict := model, best_prec1 := best }
    is_best "checkpoint.pth.tar" st.fs
  (⟨best, model, fs, optimizer⟩,
   [.adjustLR epoch (scheduled_lr args epoch), .trainE epoch,
    .validateE epoch prec1, .saveCkpt epoch is_best])

/-- `for epoch in range(args.start_epoch, args.epochs): ...` (line 178),
run over an explicit list of epochs. -/
def trainLoop (args : Args) (env : Env) :
    List Nat → LoopState → LoopState × List Event
  | [], st => (st, [])
  | e :: es, st =>
      let r := epochBody args env e st
      let r2 := trainLoop args env es r.1
      (r2.1, r.2 ++ r2.2)

/-- The epochs the loop visits: `range(args.start_epoch, args.epochs)`. -/
def epochRange (args : Args) : List Nat :=
  List.range' args.start_epoch (args.epochs - args.start_epoch)

/-- The validation precisions carried by a list of events, in order. -/
def prec1List (evs : List Event) : List ℚ :=
  evs.filterMap fun ev =>
    match ev with
    | .validateE _ p => some p
    | _ => none

/-- Result of the resume branch: possibly updated args (start epoch),
best precision, model weights, and the events it emitted. -/
structure ResumeOut where
  args : Args
  best : ℚ
  model : StateDict
  events : List Event

/-- The resume branch (lines 144-153): if `--resume` names an existing file,
restore `start_epoch`, `best_prec1` and the model weights from it; if it
names no file, print a not-found message and change nothing. -/
def resumeBranch (args : Args) (best : ℚ) (model : StateDict) (fs : FS) :
    ResumeOut :=
  if args.resume ≠ "" then
    match fs.files args.resume with
    | some checkpoint =>
        ⟨{ args with start_epoch := checkpoint.epoch },
         checkpoint.best_prec1, checkpoint.state_dict,
         [.printMsg ("=> loading checkpoint '" ++ args.resume ++ "'"),
          .loadResume args.resume,
          .printMsg ("=> loaded checkpoint '" ++ args.resume ++ "'")]⟩
    | none =>
        ⟨args, best, model,
         [.printMsg ("=> no checkpoint found at '" ++ args.resume ++ "'")]⟩
  else ⟨args, best, model, []⟩

/-- The local variable `test_loader` (line 125): bound only when
`args.imagenet` is false. -/
def testLoaderOpt (imagenet : Bool) : Option Loader :=
  if imagenet then none else some Loader.test

/-- Reading a local variable that may be unbound: Python raises a `NameError`
if it was never assigned. -/
def lookupLoader : Option Loader → Except String Loader
  | some loader => .ok loader
  | none => .error "NameError: test_loader is not defined"

/-- What `main` leaves behind when it returns normally. -/
structure MainOut where
  events : List Event
  best : ℚ
  model : StateDict
  fs : FS
  args : Args

/-- `main()` (lines 59-198) from the resume branch on, given the parsed args,
the framework oracle, the initial filesystem and the freshly constructed
model's weights.  Returns the events in execution order, or an error if an
unbound local were ever read. -/
def mainE (args0 : Args) (env : Env) (fs0 : FS) (model0 : StateDict) :
    Except String MainOut :=
  let loaderOpt := testLoaderOpt args0.imagenet
  let r := resumeBranch args0 0 model0 fs0
  if r.args.test ≠ "" ∧ r.args.imagenet = false then
    let path := "runs/" ++ r.args.test ++ "/checkpoint.pth.tar"
    let args1 := { r.args with test := path }
    match fs0.files path with
    | some checkpoint =>
        let args2 := { args1 with start_epoch := checkpoint.epoch }
        match lookupLoader loaderOpt with
        | .ok loader =>
            .ok ⟨r.events ++
                  [.printMsg ("=> loading model '" ++ path ++ "'"),
                   .loadTest path,
                   .printMsg ("=> loaded model '" ++ path ++ "'"),
                   .testPass loader],
                 checkpoint.best_prec1, checkpoint.state_dict, fs0, args2⟩
        | .error e => .error e
    | none =>
        .ok ⟨r.events ++ [.printMsg ("=> no model found at '" ++ path ++ "'")],
             r.best, r.model, fs0, args1⟩
  else
    let optimizer := mkSGD r.model r.args.lr r.args.momentum r.args.weight_decay
    let run := trainLoop r.args env (epochRange r.args)
      ⟨r.best, r.model, fs0, optimizer⟩
    let events := r.events ++ [.mkOptim] ++ run.2 ++
      [.printMsg "Best accuracy: "]
    if r.args.imagenet then
      .ok ⟨events, run.1.best, run.1.model, run.1.fs, r.args⟩
    else
      match lookupLoader loaderOpt with
      | .ok loader =>
          .ok ⟨events ++ [.testPass loader],
               run.1.best, run.1.model, run.1.fs, r.args⟩
      | .error e => .error e

end DenseNetMain

namespace DenseNetMain

theorem scheduled_lr_eq (args : Args) (epoch : Nat) :
    scheduled_lr args epoch =
      args.lr * (1/10) ^ (epoch / milestone1 args) *
        (1/10) ^ (epoch / milestone2 args) := by
  unfold scheduled_lr milestone1 milestone2
  by_cases h : args.imagenet <;> simp [h]

theorem map_lr_set (l : List ParamGroup) (c : ℚ) :
    (l.map fun g => { g with lr := c }).map ParamGroup.lr
      = l.map fun _ => c := by
  induction l with
  | nil => rfl
  | cons g l ih => simp only [List.map_cons, ih]

theorem map_set_lr_frame (l : List ParamGroup) (c : ℚ) (i : Nat) :
    ((l.map fun g => { g with lr := c })[i]?.map
      fun g => (g.params, g.momentum, g.weight_decay, g.nesterov))
    = (l[i]?.map fun g => (g.params, g.momentum, g.weight_decay, g.nesterov)) := by
  simp only [List.getElem?_map]
  cases l[i]? <;> rfl

theorem scheduled_lr_piecewise (args : Args) (epoch : Nat)
    (h : epoch < 2 * milestone1 args) :
    scheduled_lr args epoch = claimed_lr args epoch := by
  unfold scheduled_lr claimed_lr
  by_cases him : args.imagenet
  · simp only [him, if_true]
    simp only [milestone1, him, if_true] at h
    by_cases h1 : epoch < 30
    · have e1 : epoch / 30 = 0 := by omega
      have e2 : epoch / 60 = 0 := by omega
      simp [h1, e1, e2]
    · have h2 : epoch < 60 := by omega
      have e1 : epoch / 30 = 1 := by omega
      have e2 : epoch / 60 = 0 := by omega
      simp only [h1, if_false, h2, if_true, e1, e2, pow_one, pow_zero, mul_one]
      ring
  · simp only [him, if_false, Bool.false_eq_true]
    simp only [milestone1, him, if_false, Bool.false_eq_true] at h
    by_cases h1 : epoch < 150
    · have e1 : epoch / 150 = 0 := by omega
      have e2 : epoch / 225 = 0 := by omega
      simp [h1, e1, e2]
    · by_cases h2 : epoch < 225
      · have e1 : epoch / 150 = 1 := by omega
        have e2 : epoch / 225 = 0 := by omega
        simp only [h1, if_false, h2, if_true, e1, e2, pow_one, pow_zero, mul_one]
        ring
      · have e1 : epoch / 150 = 1 := by omega
        have e2 : epoch / 225 = 1 := by omega
        simp only [h1, if_false, h2, e1, e2, pow_one]
        ring

/-- C2 (counterexample): in ImageNet mode at epoch 60 — the second
milestone — `adjust_learning_rate` writes `args.lr / 1000` into the param
groups, not the `args.lr / 100` the claim's piecewise description demands,
because the two `0.1 ** (epoch // m)` factors compound. -/
theorem claim_C2_counterexample :
    ((adjust_learning_rate { defaultArgs with imagenet := true, lr := 1 }
        (mkSGD "model" 1 (9/10) (1/10000)) 60).param_groups.map ParamGroup.lr
      = [1/1000]) ∧
    claimed_lr { defaultArgs with imagenet := true, lr := 1 } 60 = 1/100 ∧
    (1/1000 : ℚ) ≠ 1/100 := by
  refine ⟨?_, ?_, by norm_num⟩
  · simp only [adjust_learning_rate, mkSGD, scheduled_lr, defaultArgs,
      List.map_cons, List.map_nil]
    norm_num
  · norm_num [claimed_lr, defaultArgs]

/-- C2 (amended): every param group of the optimizer returned by
`adjust_learning_rate(optimizer, epoch)` carries the rate
`args.lr * 0.1 ^ (epoch / m1) * 0.1 ^ (epoch / m2)` (milestones (150, 225)
in CIFAR mode, (30, 60) in ImageNet mode); for epochs below twice the first
milestone — which covers every epoch of a default CIFAR run — this agrees
with the claim's piecewise description: `args.lr` before the first
milestone, `args.lr / 10` between the milestones, `args.lr / 100` from the
second milestone on. -/
theorem claim_C2 (args : Args) (optimizer : Optimizer) (epoch : Nat) :
    ((adjust_learning_rate args optimizer epoch).param_groups.map ParamGroup.lr
      = optimizer.param_groups.map fun _ =>
          args.lr * (1/10) ^ (epoch / milestone1 args) *
            (1/10) ^ (epoch / milestone2 args)) ∧
    (epoch < 2 * milestone1 args →
      (adjust_learning_rate args optimizer epoch).param_groups.map ParamGroup.lr
        = optimizer.param_groups.map fun _ => claimed_lr args epoch) := by
  constructor
  · simp only [adjust_learning_rate, map_lr_set, scheduled_lr_eq]
  · intro h
    simp only [adjust_learning_rate, map_lr_set,
      scheduled_lr_piecewise args epoch h]

/-- C2 (witness): the amended claim at the default CIFAR configuration,
epoch 160 (between the milestones), on the optimizer `main` builds. -/
theorem claim_C2_witness :
    (adjust_learning_rate defaultArgs (mkSGD "model" (1/10) (9/10) (1/10000))
        160).param_groups.map ParamGroup.lr
      = (mkSGD "model" (1/10) (9/10) (1/10000)).param_groups.map
          (fun _ => claimed_lr defaultArgs 160) :=
  (claim_C2 defaultArgs (mkSGD "model" (1/10) (9/10) (1/10000)) 160).2
    (by decide)

/-- C9: `adjust_learning_rate` changes only the `lr` entry of each param
group: the group count is preserved and every group keeps its parameter
list, momentum, weight decay and nesterov flag. -/
theorem claim_C9 (args : Args) (optimizer : Optimizer) (epoch : Nat) :
    ((adjust_learning_rate args optimizer epoch).param_groups.length
      = optimizer.param_groups.length) ∧
    ∀ i : Nat,
      ((adjust_learning_rate args optimizer epoch).param_groups[i]?.map
        fun g => (g.params, g.momentum, g.weight_decay, g.nesterov))
      = (optimizer.param_groups[i]?.map
        fun g => (g.params, g.momentum, g.weight_decay, g.nesterov)) := by
  refine ⟨by simp [adjust_learning_rate], fun i => ?_⟩
  simp only [adjust_learning_rate]
  exact map_set_lr_frame _ _ i

theorem trainLoop_events_shape (args : Args) (env : Env) (es : List Nat)
    (st : LoopState) :
    ((trainLoop args env es st).2).map Event.shape
      = es.flatMap fun e =>
          [Step.adjust e, Step.train e, Step.validate e, Step.save e] := by
  induction es generalizing st with
  | nil => rfl
  | cons e es ih =>
    simp only [trainLoop, List.map_append, ih, List.flatMap_cons]
    rfl

/-- C1: the epoch loop visits exactly the epochs `start_epoch ≤ e < epochs`
(none skipped), and its event trace is, epoch by epoch in increasing order,
exactly `adjust_learning_rate(optimizer, e)`, the training pass, the
validation pass, then the checkpoint save — nothing else intervenes. -/
theorem claim_C1 (args : Args) (env : Env) (st : LoopState) :
    (∀ e : Nat, e ∈ epochRange args ↔
      args.start_epoch ≤ e ∧ e < args.epochs) ∧
    ((trainLoop args env (epochRange args) st).2).map Event.shape
      = (epochRange args).flatMap fun e =>
          [Step.adjust e, Step.train e, Step.validate e, Step.save e] := by
  refine ⟨fun e => ?_, trainLoop_events_shape args env (epochRange args) st⟩
  rw [epochRange, List.mem_range'_1]
  omega

theorem le_foldl_max (l : List ℚ) (b : ℚ) : b ≤ l.foldl max b := by
  induction l generalizing b with
  | nil => exact le_refl b
  | cons a l ih => exact le_trans (le_max_left b a) (ih (max b a))

theorem trainLoop_best (args : Args) (env : Env) (es : List Nat)
    (st : LoopState) :
    (trainLoop args env es st).1.best
      = (prec1List (trainLoop args env es st).2).foldl max st.best := by
  induction es generalizing st with
  | nil => rfl
  | cons e es ih =>
    simp only [trainLoop]
    rw [ih]
    simp only [prec1List, List.filterMap_append]
    rw [List.foldl_append]
    simp only [epochBody, List.filterMap_cons, List.filterMap_nil]
    simp [max_comm]

/-- C3: after any run of the epoch loop, `best_prec1` equals the maximum of
its value before the loop started and every validation precision returned so
far; in particular it never decreases. -/
theorem claim_C3 (args : Args) (env : Env) (es : List Nat) (st : LoopState) :
    ((trainLoop args env es st).1.best
      = (prec1List (trainLoop args env es st).2).foldl max st.best) ∧
    st.best ≤ (trainLoop args env es st).1.best := by
  refine ⟨trainLoop_best args env es st, ?_⟩
  rw [trainLoop_best args env es st]
  exact le_foldl_max _ _

theorem runs_append_ckpt (n : String) :
    ("runs/" ++ n ++ "/") ++ "checkpoint.pth.tar"
      = "runs/" ++ n ++ "/checkpoint.pth.tar" := by
  apply String.ext
  simp [String.data_append, List.append_assoc]

theorem ckptPath_ne_bestPath (n : String) :
    "runs/" ++ n ++ "/checkpoint.pth.tar"
      ≠ "runs/" ++ n ++ "/model_best.pth.tar" := by
  intro h
  have h2 := congrArg String.data h
  simp [String.data_append, List.append_assoc] at h2

theorem ckptPath_ne_empty (n : String) :
    "runs/" ++ n ++ "/checkpoint.pth.tar" ≠ "" := by
  intro h
  have h2 := congrArg String.data h
  simp [String.data_append, List.append_assoc] at h2

theorem save_checkpoint_spec (name : String) (state : Checkpoint)
    (is_best : Bool) (fs : FS) :
    ((save_checkpoint name state is_best "checkpoint.pth.tar" fs).dirs
        ("runs/" ++ name ++ "/") = true) ∧
    ((save_checkpoint name state is_best "checkpoint.pth.tar" fs).files
        ("runs/" ++ name ++ "/checkpoint.pth.tar") = some state) ∧
    ((save_checkpoint name state is_best "checkpoint.pth.tar" fs).files
        ("runs/" ++ name ++ "/model_best.pth.tar")
      = if is_best then some state
        else fs.files ("runs/" ++ name ++ "/model_best.pth.tar")) := by
  unfold save_checkpoint
  simp only [runs_append_ckpt]
  cases is_best with
  | true =>
    refine ⟨?_, ?_, ?_⟩
    · by_cases hd : fs.dirs ("runs/" ++ name ++ "/") <;>
        simp [FS.copyFile, FS.writeFile, FS.makedirs, hd]
    · by_cases hd : fs.dirs ("runs/" ++ name ++ "/") <;>
        simp [FS.copyFile, FS.writeFile, FS.makedirs, hd,
          (ckptPath_ne_bestPath name).symm]
    · by_cases hd : fs.dirs ("runs/" ++ name ++ "/") <;>
        simp [FS.copyFile, FS.writeFile, FS.makedirs, hd]
  | false =>
    refine ⟨?_, ?_, ?_⟩
    · by_cases hd : fs.dirs ("runs/" ++ name ++ "/") <;>
        simp [FS.writeFile, FS.makedirs, hd]
    · by_cases hd : fs.dirs ("runs/" ++ name ++ "/") <;>
        simp [FS.writeFile, FS.makedirs, hd]
    · by_cases hd : fs.dirs ("runs/" ++ name ++ "/") <;>
        simp [FS.writeFile, FS.makedirs, hd, (ckptPath_ne_bestPath name).symm]

/-- C4: after the epoch-`e` body, `runs/{name}/` exists,
`runs/{name}/checkpoint.pth.tar` holds epoch `e + 1`, the post-training
model weights and the updated best precision, and
`runs/{name}/model_best.pth.tar` received a copy of that checkpoint exactly
when this epoch's validation precision strictly exceeds the best value
recorded before the epoch (otherwise it is untouched). -/
theorem claim_C4 (args : Args) (env : Env) (epoch : Nat) (st : LoopState) :
    ((epochBody args env epoch st).1.fs.dirs
        ("runs/" ++ args.name ++ "/") = true) ∧
    ((epochBody args env epoch st).1.fs.files
        ("runs/" ++ args.name ++ "/checkpoint.pth.tar")
      = some { epoch := epoch + 1,
               state_dict := env.trainStep epoch st.model
                 (adjust_learning_rate args st.optimizer epoch),
               best_prec1 := max (env.validate epoch
                 (env.trainStep epoch st.model
                   (adjust_learning_rate args st.optimizer epoch))) st.best }) ∧
    ((epochBody args env epoch st).1.fs.files
        ("runs/" ++ args.name ++ "/model_best.pth.tar")
      = if st.best < env.validate epoch (env.trainStep epoch st.model
            (adjust_learning_rate args st.optimizer epoch))
        then some { epoch := epoch + 1,
                    state_dict := env.trainStep epoch st.model
                      (adjust_learning_rate args st.optimizer epoch),
                    best_prec1 := max (env.validate epoch
                      (env.trainStep epoch st.model
                        (adjust_learning_rate args st.optimizer epoch))) st.best }
        else st.fs.files ("runs/" ++ args.name ++ "/model_best.pth.tar")) := by
  have h := save_checkpoint_spec args.name
    { epoch := epoch + 1,
      state_dict := env.trainStep epoch st.model
        (adjust_learning_rate args st.optimizer epoch),
      best_prec1 := max (env.validate epoch (env.trainStep epoch st.model
        (adjust_learning_rate args st.optimizer epoch))) st.best }
    (decide (st.best < env.validate epoch (env.trainStep epoch st.model
      (adjust_learning_rate args st.optimizer epoch))))
    st.fs
  refine ⟨h.1, h.2.1, ?_⟩
  rw [show (epochBody args env epoch st).1.fs = save_checkpoint args.name
    { epoch := epoch + 1,
      state_dict := env.trainStep epoch st.model
        (adjust_learning_rate args st.optimizer epoch),
      best_prec1 := max (env.validate epoch (env.trainStep epoch st.model
        (adjust_learning_rate args st.optimizer epoch))) st.best }
    (decide (st.best < env.validate epoch (env.trainStep epoch st.model
      (adjust_learning_rate args st.optimizer epoch))))
    "checkpoint.pth.tar" st.fs from rfl, h.2.2]
  by_cases hb : st.best < env.validate epoch (env.trainStep epoch st.model
      (adjust_learning_rate args st.optimizer epoch)) <;>
    simp [hb]

/-- C5: checkpoint save and restore round-trip.  The dictionary written by
`save_checkpoint` carries exactly the keys the resume branch reads back
(`epoch`, `state_dict`, `best_prec1`), so resuming from the checkpoint saved
at the end of epoch `e` restores `start_epoch = e + 1`, the best accuracy
recorded at save time, and the saved model weights. -/
theorem claim_C5 (args : Args) (e : Nat) (sd : StateDict) (b : ℚ)
    (is_best : Bool) (fs : FS) (best0 : ℚ) (model0 : StateDict) :
    ((resumeBranch
        { args with resume := "runs/" ++ args.name ++ "/checkpoint.pth.tar" }
        best0 model0
        (save_checkpoint args.name
          { epoch := e + 1, state_dict := sd, best_prec1 := b }
          is_best "checkpoint.pth.tar" fs)).args.start_epoch = e + 1) ∧
    ((resumeBranch
        { args with resume := "runs/" ++ args.name ++ "/checkpoint.pth.tar" }
        best0 model0
        (save_checkpoint args.name
          { epoch := e + 1, state_dict := sd, best_prec1 := b }
          is_best "checkpoint.pth.tar" fs)).best = b) ∧
    ((resumeBranch
        { args with resume := "runs/" ++ args.name ++ "/checkpoint.pth.tar" }
        best0 model0
        (save_checkpoint args.name
          { epoch := e + 1, state_dict := sd, best_prec1 := b }
          is_best "checkpoint.pth.tar" fs)).model = sd) := by
  have hfile := (save_checkpoint_spec args.name
    { epoch := e + 1, state_dict := sd, best_prec1 := b } is_best fs).2.1
  unfold resumeBranch
  simp only [ne_eq, ckptPath_ne_empty args.name, not_false_iff, if_true,
    hfile]
  exact ⟨trivial, trivial, trivial⟩

/-- C6: if `--resume` names an existing checkpoint file, `start_epoch`,
`best_prec1` and the model weights are taken from it; if it names no
existing file, the branch prints a not-found message and training proceeds
from the command-line `start_epoch` with `best_prec1 = 0` and the fresh
model, raising no error. -/
theorem claim_C6 (args : Args) (model0 : StateDict) (fs : FS)
    (h : args.resume ≠ "") :
    (∀ c : Checkpoint, fs.files args.resume = some c →
      resumeBranch args 0 model0 fs =
        ⟨{ args with start_epoch := c.epoch }, c.best_prec1, c.state_dict,
         [.printMsg ("=> loading checkpoint '" ++ args.resume ++ "'"),
          .loadResume args.resume,
          .printMsg ("=> loaded checkpoint '" ++ args.resume ++ "'")]⟩) ∧
    (fs.files args.resume = none →
      resumeBranch args 0 model0 fs =
        ⟨args, 0, model0,
         [.printMsg ("=> no checkpoint found at '" ++ args.resume ++ "'")]⟩) := by
  constructor
  · intro c hc
    unfold resumeBranch
    simp only [ne_eq, h, not_false_iff, if_true, hc]
  · intro hc
    unfold resumeBranch
    simp only [ne_eq, h, not_false_iff, if_true, hc]

/-- C6 (witness): the two branches at a concrete argument set and
filesystem: resuming from `"ck"` when that file holds a checkpoint of epoch
5, and when no file exists at all. -/
theorem claim_C6_witness :
    (resumeBranch { defaultArgs with resume := "ck" } 0 "m0"
        ⟨fun _ => false,
         fun q => if q = "ck" then some ⟨5, "w", 1/2⟩ else none⟩ =
      ⟨{ { defaultArgs with resume := "ck" } with start_epoch := 5 },
       1/2, "w",
       [.printMsg "=> loading checkpoint 'ck'", .loadResume "ck",
        .printMsg "=> loaded checkpoint 'ck'"]⟩) ∧
    (resumeBranch { defaultArgs with resume := "ck" } 0 "m0"
        ⟨fun _ => false, fun _ => none⟩ =
      ⟨{ defaultArgs with resume := "ck" }, 0, "m0",
       [.printMsg "=> no checkpoint found at 'ck'"]⟩) :=
  ⟨by
    have h := (claim_C6 { defaultArgs with resume := "ck" } "m0"
      ⟨fun _ => false,
       fun q => if q = "ck" then some ⟨5, "w", 1/2⟩ else none⟩
      (by simp)).1 ⟨5, "w", 1/2⟩ (by simp)
    simpa using h,
   by
    have h := (claim_C6 { defaultArgs with resume := "ck" } "m0"
      ⟨fun _ => false, fun _ => none⟩ (by simp)).2 rfl
    simpa using h⟩

theorem trainLoop_count_test (args : Args) (env : Env) (es : List Nat)
    (st : LoopState) :
    ((trainLoop args env es st).2).countP Event.isTest = 0 := by
  induction es generalizing st with
  | nil => rfl
  | cons e es ih =>
    simp [trainLoop, List.countP_append, ih, epochBody, List.countP_cons,
      Event.isTest]

theorem trainLoop_count_loadTest (args : Args) (env : Env) (es : List Nat)
    (st : LoopState) :
    ((trainLoop args env es st).2).countP Event.isLoadTest = 0 := by
  induction es generalizing st with
  | nil => rfl
  | cons e es ih =>
    simp [trainLoop, List.countP_append, ih, epochBody, List.countP_cons,
      Event.isLoadTest]

theorem trainLoop_count_optim (args : Args) (env : Env) (es : List Nat)
    (st : LoopState) :
    ((trainLoop args env es st).2).countP Event.isOptim = 0 := by
  induction es generalizing st with
  | nil => rfl
  | cons e es ih =>
    simp [trainLoop, List.countP_append, ih, epochBody, List.countP_cons,
      Event.isOptim]

theorem trainLoop_count_train (args : Args) (env : Env) (es : List Nat)
    (st : LoopState) :
    ((trainLoop args env es st).2).countP Event.isTrain = es.length := by
  induction es generalizing st with
  | nil => rfl
  | cons e es ih =>
    simp [trainLoop, List.countP_append, ih, epochBody, List.countP_cons,
      Event.isTrain]

theorem resumeBranch_count (args : Args) (best : ℚ) (model : StateDict)
    (fs : FS) :
    ((resumeBranch args best model fs).events.countP Event.isTest = 0) ∧
    ((resumeBranch args best model fs).events.countP Event.isLoadTest = 0) ∧
    ((resumeBranch args best model fs).events.countP Event.isOptim = 0) ∧
    ((resumeBranch args best model fs).events.countP Event.isTrain = 0) := by
  unfold resumeBranch
  by_cases h : args.resume = ""
  · simp [h]
  · simp only [ne_eq, h, not_false_iff, if_true]
    cases fs.files args.resume <;>
      simp [List.countP_cons, Event.isTest, Event.isLoadTest, Event.isOptim,
        Event.isTrain]

theorem resumeBranch_preserves (args : Args) (best : ℚ) (model : StateDict)
    (fs : FS) :
    ((resumeBranch args best model fs).args.test = args.test) ∧
    ((resumeBranch args best model fs).args.imagenet = args.imagenet) ∧
    ((resumeBranch args best model fs).args.epochs = args.epochs) ∧
    ((resumeBranch args best model fs).args.name = args.name) := by
  unfold resumeBranch
  by_cases h : args.resume = ""
  · simp [h]
  · simp only [ne_eq, h, not_false_iff, if_true]
    cases fs.files args.resume <;> simp

/-- C7: in CIFAR mode (`--imagenet` not set), a non-empty `--test` makes
`main` rewrite `args.test` to `runs/{args.test}/checkpoint.pth.tar`, load
that file and run exactly one test pass when it exists (zero when it does
not), and return immediately either way: no optimizer is constructed and no
training epoch runs.  With `--test` empty, exactly one test pass runs, after
the full training loop. -/
theorem claim_C7 (args : Args) (env : Env) (fs : FS) (model0 : StateDict)
    (him : args.imagenet = false) :
    (args.test ≠ "" →
      ∃ out, mainE args env fs model0 = Except.ok out ∧
        out.args.test = "runs/" ++ args.test ++ "/checkpoint.pth.tar" ∧
        out.events.countP Event.isTrain = 0 ∧
        out.events.countP Event.isOptim = 0 ∧
        out.events.countP Event.isTest
          = (if (fs.files
                ("runs/" ++ args.test ++ "/checkpoint.pth.tar")).isSome
             then 1 else 0) ∧
        ((fs.files
            ("runs/" ++ args.test ++ "/checkpoint.pth.tar")).isSome = true →
          Event.loadTest ("runs/" ++ args.test ++ "/checkpoint.pth.tar")
            ∈ out.events)) ∧
    (args.test = "" →
      ∃ out evs loader, mainE args env fs model0 = Except.ok out ∧
        out.events = evs ++ [Event.testPass loader] ∧
        evs.countP Event.isTest = 0 ∧
        evs.countP Event.isTrain
          = (epochRange (resumeBranch args 0 model0 fs).args).length) := by
  obtain ⟨hpt, hpi, hpe, hpn⟩ := resumeBranch_preserves args 0 model0 fs
  obtain ⟨hc1, hc2, hc3, hc4⟩ := resumeBranch_count args 0 model0 fs
  constructor
  · intro htest
    have h1 : (resumeBranch args 0 model0 fs).args.test ≠ "" ∧
        (resumeBranch args 0 model0 fs).args.imagenet = false :=
      ⟨by rw [hpt]; exact htest, by rw [hpi]; exact him⟩
    simp only [mainE]
    rw [if_pos h1, hpt]
    cases hf : fs.files ("runs/" ++ args.test ++ "/checkpoint.pth.tar") with
    | some c =>
      simp only [him, testLoaderOpt, Bool.false_eq_true, if_false,
        lookupLoader]
      refine ⟨_, rfl, rfl, ?_, ?_, ?_, ?_⟩
      · simp [List.countP_append, hc4, List.countP_cons, Event.isTrain]
      · simp [List.countP_append, hc3, List.countP_cons, Event.isOptim]
      · simp [List.countP_append, hc1, List.countP_cons, Event.isTest]
      · intro _
        simp [List.mem_append]
    | none =>
      refine ⟨_, rfl, rfl, ?_, ?_, ?_, ?_⟩
      · simp [List.countP_append, hc4, List.countP_cons, Event.isTrain]
      · simp [List.countP_append, hc3, List.countP_cons, Event.isOptim]
      · simp [List.countP_append, hc1, List.countP_cons, Event.isTest]
      · intro hcontra
        simp at hcontra
  · intro htest
    have h1 : ¬((resumeBranch args 0 model0 fs).args.test ≠ "" ∧
        (resumeBranch args 0 model0 fs).args.imagenet = false) := by
      rw [hpt, htest]; simp
    have h2 : (resumeBranch args 0 model0 fs).args.imagenet = false := by
      rw [hpi]; exact him
    simp only [mainE]
    rw [if_neg h1]
    simp only [h2, Bool.false_eq_true, if_false, him, testLoaderOpt,
      lookupLoader]
    refine ⟨_, _, _, rfl, rfl, ?_, ?_⟩
    · simp [List.countP_append, hc1, trainLoop_count_test,
        List.countP_cons, Event.isTest]
    · simp [List.countP_append, hc4, trainLoop_count_train,
        List.countP_cons, Event.isTrain]

/-- C7 (witness): CIFAR mode with `--test exp` on an empty filesystem: the
test branch rewrites `args.test`, finds no checkpoint, runs no training
epoch, builds no optimizer and runs no test pass. -/
theorem claim_C7_witness :
    ∃ out, mainE { defaultArgs with test := "exp" }
        ⟨fun _ m _ => m, fun _ _ => 0⟩
        ⟨fun _ => false, fun _ => none⟩ "m0" = Except.ok out ∧
      out.args.test = "runs/" ++ "exp" ++ "/checkpoint.pth.tar" ∧
      out.events.countP Event.isTrain = 0 ∧
      out.events.countP Event.isOptim = 0 ∧
      out.events.countP Event.isTest
        = (if ((⟨fun _ => false, fun _ => none⟩ : FS).files
              ("runs/" ++ "exp" ++ "/checkpoint.pth.tar")).isSome
           then 1 else 0) ∧
      (((⟨fun _ => false, fun _ => none⟩ : FS).files
          ("runs/" ++ "exp" ++ "/checkpoint.pth.tar")).isSome = true →
        Event.loadTest ("runs/" ++ "exp" ++ "/checkpoint.pth.tar")
          ∈ out.events) :=
  (claim_C7 { defaultArgs with test := "exp" }
    ⟨fun _ m _ => m, fun _ _ => 0⟩
    ⟨fun _ => false, fun _ => none⟩ "m0" rfl).1 (by simp)

/-- C8: with both `--test` and `--imagenet` given, the test branch is
skipped entirely: no load from the test path, no test pass, no early return;
the optimizer is built once and the full ImageNet training loop runs, with
`args.test` left exactly as given. -/
theorem claim_C8 (args : Args) (env : Env) (fs : FS) (model0 : StateDict)
    (htest : args.test ≠ "") (him : args.imagenet = true) :
    ∃ out, mainE args env fs model0 = Except.ok out ∧
      out.args.test = args.test ∧
      out.events.countP Event.isTest = 0 ∧
      out.events.countP Event.isLoadTest = 0 ∧
      out.events.countP Event.isOptim = 1 ∧
      out.events.countP Event.isTrain
        = (epochRange (resumeBranch args 0 model0 fs).args).length := by
  obtain ⟨hpt, hpi, hpe, hpn⟩ := resumeBranch_preserves args 0 model0 fs
  obtain ⟨hc1, hc2, hc3, hc4⟩ := resumeBranch_count args 0 model0 fs
  have h1 : ¬((resumeBranch args 0 model0 fs).args.test ≠ "" ∧
      (resumeBranch args 0 model0 fs).args.imagenet = false) := by
    rw [hpi, him]; simp
  have h2 : (resumeBranch args 0 model0 fs).args.imagenet = true := by
    rw [hpi]; exact him
  simp only [mainE]
  rw [if_neg h1]
  simp only [h2, if_true]
  refine ⟨_, rfl, hpt, ?_, ?_, ?_, ?_⟩
  · simp [List.countP_append, hc1, trainLoop_count_test,
      List.countP_cons, Event.isTest]
  · simp [List.countP_append, hc2, trainLoop_count_loadTest,
      List.countP_cons, Event.isLoadTest]
  · simp [List.countP_append, hc3, trainLoop_count_optim,
      List.countP_cons, Event.isOptim]
  · simp [List.countP_append, hc4, trainLoop_count_train,
      List.countP_cons, Event.isTrain]

/-- C8 (witness): ImageNet mode with `--test exp`: training proceeds (300
epochs from the default start), the test argument is ignored, and no test
pass or test-checkpoint load happens. -/
theorem claim_C8_witness :
    ∃ out, mainE { defaultArgs with test := "exp", imagenet := true }
        ⟨fun _ m _ => m, fun _ _ => 0⟩
        ⟨fun _ => false, fun _ => none⟩ "m0" = Except.ok out ∧
      out.args.test = { defaultArgs with test := "exp", imagenet := true }.test ∧
      out.events.countP Event.isTest = 0 ∧
      out.events.countP Event.isLoadTest = 0 ∧
      out.events.countP Event.isOptim = 1 ∧
      out.events.countP Event.isTrain
        = (epochRange (resumeBranch
            { defaultArgs with test := "exp", imagenet := true } 0 "m0"
            ⟨fun _ => false, fun _ => none⟩).args).length :=
  claim_C8 { defaultArgs with test := "exp", imagenet := true }
    ⟨fun _ m _ => m, fun _ _ => 0⟩
    ⟨fun _ => false, fun _ => none⟩ "m0" (by simp) rfl

/-- C10: the local `test_loader` is bound exactly when `args.imagenet` is
false, and every code path of `main` that reads it sits under a guard that
`args.imagenet` is false, so `main` never raises an unbound-name error: on
every input it returns normally. -/
theorem claim_C10 (args : Args) (env : Env) (fs : FS) (model0 : StateDict) :
    (∀ b : Bool, (testLoaderOpt b).isSome = !b) ∧
    ∃ out, mainE args env fs model0 = Except.ok out := by
  refine ⟨fun b => by cases b <;> rfl, ?_⟩
  obtain ⟨hpt, hpi, hpe, hpn⟩ := resumeBranch_preserves args 0 model0 fs
  simp only [mainE]
  by_cases h1 : (resumeBranch args 0 model0 fs).args.test ≠ "" ∧
      (resumeBranch args 0 model0 fs).args.imagenet = false
  · rw [if_pos h1]
    have him : args.imagenet = false := by rw [← hpi]; exact h1.2
    cases hf : fs.files
        ("runs/" ++ (resumeBranch args 0 model0 fs).args.test ++
          "/checkpoint.pth.tar") with
    | some c => simp [hf, him, testLoaderOpt, lookupLoader]
    | none => simp [hf]
  · rw [if_neg h1]
    by_cases h2 : (resumeBranch args 0 model0 fs).args.imagenet
    · simp [h2]
    · have him : args.imagenet = false := by
        rw [← hpi]; simpa using h2
      simp [h2, him, testLoaderOpt, lookupLoader]

end DenseNetMain
